import Mathlib

/-!
Shallow embedding of the time-tracking application (src/main.py and
src/database.py): the relational data model, the role-based visibility
filters, the dashboard and reports aggregators, the time-log submission
endpoint and the seeding routine, together with theorems settling the
specification claims about them.

Machine floats of the source are modelled as exact rationals, the
relational store as lists of rows, the SQL queries as list filters, and
the Python dicts used for grouping as insertion-ordered association
lists.  Code paths that raise an exception are modelled with Option.
-/

namespace Tracker

/-- A calendar date as stored in the Date columns (datetime.date). -/
structure CalDate where
  year : Nat
  month : Nat
  day : Nat
deriving DecidableEq, Repr

/-- Row of the users table (database.py, class User). -/
structure User where
  id : Int
  username : String
  hashed_password : String
  role : String
  client_id : Option Int
deriving DecidableEq, Repr

/-- Row of the clients table (database.py, class Client). -/
structure Client where
  id : Int
  name : String
  contact_email : String
deriving DecidableEq, Repr

/-- Row of the projects table (database.py, class Project). -/
structure Project where
  id : Int
  name : String
  client_id : Option Int
  status : String
  deadline : CalDate
  budget : Rat
deriving DecidableEq, Repr

/-- Row of the time_entries table (database.py, class TimeEntry). -/
structure TimeEntry where
  id : Int
  project_id : Int
  date : CalDate
  hours : Rat
  description : String
deriving DecidableEq, Repr

/-- Row of the invoices table (database.py, class Invoice). -/
structure Invoice where
  id : Int
  project_id : Int
  amount : Rat
  date_issued : CalDate
  status : String
deriving DecidableEq, Repr

/-- The whole relational store. -/
structure Store where
  users : List User
  clients : List Client
  projects : List Project
  time_entries : List TimeEntry
  invoices : List Invoice
deriving DecidableEq, Repr

/-- The store with no rows at all. -/
def emptyStore : Store :=
  { users := [], clients := [], projects := [], time_entries := [], invoices := [] }

/-- The SQLAlchemy relationship Project.time_entries: rows of the
time_entries table whose project_id equals the project id. -/
def timeEntriesOf (s : Store) (p : Project) : List TimeEntry :=
  s.time_entries.filter (fun e => e.project_id = p.id)

/-- Date order used by the SQL comparison TimeEntry.date >= d
(year, then month, then day). -/
def dateLe (a b : CalDate) : Prop :=
  a.year < b.year ∨ (a.year = b.year ∧
    (a.month < b.month ∨ (a.month = b.month ∧ a.day ≤ b.day)))

instance : DecidableRel dateLe := fun a b => by
  unfold dateLe; infer_instance

/-! ### Date parsing and arithmetic (datetime) -/

/-- Gregorian leap-year test used by datetime.date. -/
def isLeapYear (y : Nat) : Bool :=
  (y % 4 == 0 && y % 100 != 0) || y % 400 == 0

/-- Number of days of a month, as validated by datetime.date. -/
def daysInMonth (y m : Nat) : Nat :=
  if m = 2 then (if isLeapYear y then 29 else 28)
  else if m = 4 || m = 6 || m = 9 || m = 11 then 30
  else 31

/-- The constructor check of datetime.date: year in 1..9999, month in
1..12, day in 1..daysInMonth. -/
def mkValidDate (y m d : Nat) : Option CalDate :=
  if 1 ≤ y ∧ y ≤ 9999 ∧ 1 ≤ m ∧ m ≤ 12 ∧ 1 ≤ d ∧ d ≤ daysInMonth y m then
    some { year := y, month := m, day := d }
  else none

/-- Split of a character list at a separator character, keeping empty
pieces (the semantics of splitting a string at each hyphen). -/
def splitOnChar (c : Char) : List Char → List (List Char)
  | [] => [[]]
  | x :: xs =>
    if x = c then [] :: splitOnChar c xs
    else
      match splitOnChar c xs with
      | [] => [[x]]
      | y :: ys => (x :: y) :: ys

/-- Decimal value of a digit list. -/
def digitsToNat (l : List Char) : Nat :=
  l.foldl (fun n c => n * 10 + (c.toNat - 48)) 0

/-- datetime.strptime(date_str, "%Y-%m-%d").date(): a 4-digit year, a
1-2 digit month and a 1-2 digit day separated by hyphens, which must
form a valid calendar date; anything else raises, modelled as none. -/
def parseDateStr (str : String) : Option CalDate :=
  match splitOnChar ('-') str.data with
  | [ys, ms, ds] =>
    if ys.length == 4 && ys.all Char.isDigit
        && decide (1 ≤ ms.length) && decide (ms.length ≤ 2) && ms.all Char.isDigit
        && decide (1 ≤ ds.length) && decide (ds.length ≤ 2) && ds.all Char.isDigit then
      mkValidDate (digitsToNat ys) (digitsToNat ms) (digitsToNat ds)
    else none
  | _ => none

/-- The day before a date (for date - timedelta(days=n)). -/
def prevDay (d : CalDate) : CalDate :=
  if 1 < d.day then { d with day := d.day - 1 }
  else if 1 < d.month then
    { d with month := d.month - 1, day := daysInMonth d.year (d.month - 1) }
  else { year := d.year - 1, month := 12, day := 31 }

/-- The day after a date (for date + timedelta(days=n)). -/
def nextDay (d : CalDate) : CalDate :=
  if d.day < daysInMonth d.year d.month then { d with day := d.day + 1 }
  else if d.month < 12 then { d with month := d.month + 1, day := 1 }
  else { year := d.year + 1, month := 1, day := 1 }

/-- date - timedelta(days=n). -/
def dateSub (d : CalDate) : Nat → CalDate
  | 0 => d
  | n + 1 => prevDay (dateSub d n)

/-- date + timedelta(days=n). -/
def dateAdd (d : CalDate) : Nat → CalDate
  | 0 => d
  | n + 1 => nextDay (dateAdd d n)

/-! ### GET /projects (main.py, projects_page) -/

/-- The list of projects handed to the projects template: for a client
user those whose client_id equals the user client_id, otherwise all. -/
def projects_page (user : User) (s : Store) : List Project :=
  if user.role = "client" then
    s.projects.filter (fun p => p.client_id = user.client_id)
  else
    s.projects

/-! ### GET /timelogs (main.py, timelogs_page) -/

/-- Python dict assignment d[k] = v on an insertion-ordered dict:
overwrite in place when the key exists, append otherwise. -/
def dictSet (d : List (Int × Rat)) (k : Int) (v : Rat) : List (Int × Rat) :=
  match d with
  | [] => [(k, v)]
  | (k2, v2) :: rest =>
    if k2 = k then (k2, v) :: rest else (k2, v2) :: dictSet rest k v

/-- Data handed to the timelogs template. -/
structure TimelogsOutput where
  entries : List TimeEntry
  projects : List Project
  project_totals : List (Int × Rat)
deriving DecidableEq, Repr

/-- GET /timelogs: visible projects, visible entries ordered by date
descending, and the per-project running totals dict. -/
def timelogs_page (user : User) (s : Store) : TimelogsOutput :=
  if user.role = "client" then
    let projects := s.projects.filter (fun p => p.client_id = user.client_id)
    let p_ids := projects.map (fun p => p.id)
    let entries := (s.time_entries.filter (fun e => e.project_id ∈ p_ids)).insertionSort
        (fun a b => dateLe b.date a.date)
    { entries := entries, projects := projects,
      project_totals := projects.foldl
        (fun d p => dictSet d p.id (((timeEntriesOf s p).map (fun e => e.hours)).sum)) [] }
  else
    let projects := s.projects
    let entries := s.time_entries.insertionSort (fun a b => dateLe b.date a.date)
    { entries := entries, projects := projects,
      project_totals := projects.foldl
        (fun d p => dictSet d p.id (((timeEntriesOf s p).map (fun e => e.hours)).sum)) [] }

/-! ### POST /timelogs (main.py, add_timelog) -/

/-- Possible responses of the POST /timelogs handler. -/
inductive TimelogResponse where
  | redirect (url : String) (code : Nat)
  | forbidden (code : Nat) (detail : String)
  | validation_error
deriving DecidableEq, Repr

/-- Autoincrement id for a fresh time_entries row. -/
def newTimeEntryId (s : Store) : Int :=
  (s.time_entries.map (fun e => e.id)).foldl max 0 + 1

/-- POST /timelogs: clients get a 403 and no state change; otherwise the
date string is parsed (a failure raises, modelled as validation_error
with no state change) and on success exactly one new TimeEntry row is
appended and a 303 redirect to /timelogs is returned. -/
def add_timelog (user : User) (s : Store) (project_id : Int) (hours : Rat)
    (descr : String) (date_str : String) : TimelogResponse × Store :=
  if user.role = "client" then
    (.forbidden 403 ("Clients cannot add time logs"), s)
  else
    match parseDateStr date_str with
    | none => (.validation_error, s)
    | some d =>
      let e : TimeEntry :=
        { id := newTimeEntryId s, project_id := project_id, date := d,
          hours := hours, description := descr }
      (.redirect ("/timelogs") 303, { s with time_entries := s.time_entries ++ [e] })

/-! ### GET /invoices (main.py, invoices_page) -/

/-- The list of invoices handed to the invoices template. -/
def invoices_page (user : User) (s : Store) : List Invoice :=
  if user.role = "client" then
    let projects := s.projects.filter (fun p => p.client_id = user.client_id)
    let p_ids := projects.map (fun p => p.id)
    s.invoices.filter (fun i => i.project_id ∈ p_ids)
  else
    s.invoices

/-! ### GET /dashboard (main.py, dashboard) -/

/-- The four summary numbers of the dashboard template. -/
structure DashboardOutput where
  active_projects : Nat
  total_hours : Rat
  pending_invoices : Nat
  total_earned : Rat
deriving DecidableEq, Repr

/-- GET /dashboard.  The client branch filters projects by client_id and
sums hours of their entries whose date MONTH equals the current month
(the year is not compared); the other branch counts over all rows and
sums hours of entries dated on or after the first of the current month. -/
def dashboard (user : User) (s : Store) (today : CalDate) : DashboardOutput :=
  if user.role = "client" then
    let projects := s.projects.filter (fun p => p.client_id = user.client_id)
    let project_ids := projects.map (fun p => p.id)
    { active_projects := (projects.filter (fun p => p.status = "active")).length,
      total_hours := (((projects.flatMap (fun p => timeEntriesOf s p)).filter
          (fun e => e.date.month = today.month)).map (fun e => e.hours)).sum,
      pending_invoices := (s.invoices.filter
          (fun i => i.project_id ∈ project_ids ∧ i.status = "sent")).length,
      total_earned := ((s.invoices.filter
          (fun i => i.project_id ∈ project_ids ∧ i.status = "paid")).map
          (fun i => i.amount)).sum }
  else
    { active_projects := (s.projects.filter (fun p => p.status = "active")).length,
      total_hours := ((s.time_entries.filter (fun e =>
          dateLe { year := today.year, month := today.month, day := 1 } e.date)).map
          (fun e => e.hours)).sum,
      pending_invoices := (s.invoices.filter (fun i => ¬ i.status = "paid")).length,
      total_earned := ((s.invoices.filter (fun i => i.status = "paid")).map
          (fun i => i.amount)).sum }

/-! ### GET /reports (main.py, reports_page) -/

/-- Row of project_data. -/
structure ProjRow where
  name : String
  hours : Rat
deriving DecidableEq, Repr

/-- Row of monthly_data. -/
structure MonthRow where
  month : String
  amount : Rat
deriving DecidableEq, Repr

/-- Row of client_data. -/
structure ClientRow where
  name : String
  amount : Rat
deriving DecidableEq, Repr

/-- Data handed to the reports template. -/
structure ReportsOutput where
  project_data : List ProjRow
  monthly_data : List MonthRow
  client_data : List ClientRow
  max_hours : Rat
  max_monthly : Rat
  max_client : Rat
deriving DecidableEq, Repr

/-- Left zero-pad of a decimal numeral to two digits (strftime %m). -/
def pad2 (n : Nat) : String :=
  if n < 10 then ("0") ++ toString n else toString n

/-- Left zero-pad of a decimal numeral to four digits (strftime %Y). -/
def pad4 (n : Nat) : String :=
  if n < 10 then ("000") ++ toString n
  else if n < 100 then ("00") ++ toString n
  else if n < 1000 then ("0") ++ toString n
  else toString n

/-- date.strftime("%Y-%m"). -/
def formatYM (d : CalDate) : String :=
  pad4 d.year ++ ("-") ++ pad2 d.month

/-- Python d[k] = d.get(k, 0) + v on an insertion-ordered dict: add in
place when the key exists, append the key with value v otherwise. -/
def dictAdd (d : List (String × Rat)) (k : String) (v : Rat) : List (String × Rat) :=
  match d with
  | [] => [(k, v)]
  | (k2, v2) :: rest =>
    if k2 = k then (k2, v2 + v) :: rest else (k2, v2) :: dictAdd rest k v

/-- inv.project.client.name: resolve the owning project then its client;
a missing row or a NULL client_id raises in the source, modelled as
none. -/
def invClientName (s : Store) (inv : Invoice) : Option String :=
  match s.projects.find? (fun p => p.id = inv.project_id) with
  | none => none
  | some p =>
    match p.client_id with
    | none => none
    | some cid =>
      match s.clients.find? (fun c => c.id = cid) with
      | none => none
      | some c => some c.name

/-- The grouping loop of reports_page: one pass over the paid invoices
accumulating the monthly_revenue and client_revenue dicts; the client
name lookup can raise (none aborts the whole request). -/
def revenueLoop (s : Store) : List Invoice → List (String × Rat) → List (String × Rat) →
    Option (List (String × Rat) × List (String × Rat))
  | [], mrev, crev => some (mrev, crev)
  | inv :: rest, mrev, crev =>
    match invClientName s inv with
    | none => none
    | some cname =>
      revenueLoop s rest (dictAdd mrev (formatYM inv.date_issued) inv.amount)
        (dictAdd crev cname inv.amount)

/-- Python max(list, default=1). -/
def pyMax (l : List Rat) (dflt : Rat) : Rat :=
  match l with
  | [] => dflt
  | x :: xs => xs.foldl max x

/-- The projects queried by reports_page (role-filtered). -/
def reportsProjects (user : User) (s : Store) : List Project :=
  if user.role = "client" then
    s.projects.filter (fun p => p.client_id = user.client_id)
  else s.projects

/-- The per-project name/hours rows of reports_page. -/
def reportsProjectData (user : User) (s : Store) : List ProjRow :=
  (reportsProjects user s).map (fun p =>
    ({ name := p.name, hours := ((timeEntriesOf s p).map (fun e => e.hours)).sum } : ProjRow))

/-- The invoices iterated by the grouping loop of reports_page: the
paid ones for a non-client role, none for a client (the loop body is
never entered). -/
def reportsPaid (user : User) (s : Store) : List Invoice :=
  if user.role ≠ "client" then
    s.invoices.filter (fun i => i.status = "paid")
  else []

/-- The monthly_data rows of reports_page: rows of the monthly revenue
dict sorted ascending by month string. -/
def sortMonthly (mrev : List (String × Rat)) : List MonthRow :=
  (mrev.map (fun kv => ({ month := kv.1, amount := kv.2 } : MonthRow))).insertionSort
    (fun a b => a.month ≤ b.month)

/-- The client_data rows of reports_page: rows of the client revenue
dict sorted descending by amount. -/
def sortClient (crev : List (String × Rat)) : List ClientRow :=
  (crev.map (fun kv => ({ name := kv.1, amount := kv.2 } : ClientRow))).insertionSort
    (fun a b => b.amount ≤ a.amount)

/-- GET /reports: per-project hours for the visible projects; for
non-client roles the paid invoices grouped by issue month and by client
name, the former sorted ascending by month string, the latter sorted
descending by amount; and the three chart-scaling maxima with default 1. -/
def reports_page (user : User) (s : Store) : Option ReportsOutput :=
  match revenueLoop s (reportsPaid user s) [] [] with
  | none => none
  | some (mrev, crev) =>
    some { project_data := reportsProjectData user s,
           monthly_data := sortMonthly mrev,
           client_data := sortClient crev,
           max_hours := pyMax ((reportsProjectData user s).map (fun r => r.hours)) 1,
           max_monthly := pyMax ((sortMonthly mrev).map (fun r => r.amount)) 1,
           max_client := pyMax ((sortClient crev).map (fun r => r.amount)) 1 }

/-! ### init_db (database.py) -/

/-- The draws of the random module and the salted password hashing used
by the seeding routine, abstracted as parameters. -/
structure SeedParams where
  hash : String → String
  projClient : Fin 5 → Fin 3
  projStatus : Fin 5 → Fin 3
  projDeadline : Fin 5 → Nat
  projBudget : Fin 5 → Nat
  entryProject : Fin 20 → Fin 5
  entryAge : Fin 20 → Nat
  entryHours : Fin 20 → Rat
  invProject : Fin 4 → Fin 5
  invAmount : Fin 4 → Nat
  invAge : Fin 4 → Nat
  invStatus : Fin 4 → Fin 3

/-- random.choice over a three-element collection. -/
def choice3 {α : Type} (a b c : α) (i : Fin 3) : α :=
  if i.val = 0 then a else if i.val = 1 then b else c

/-- Autoincrement base: the largest id already present (0 when none). -/
def maxIdI (l : List Int) : Int := l.foldl max 0

/-- name.split()[0]. -/
def firstWord (t : String) : String := (t.splitOn (" ")).headD ("")

/-- The i-th seeded client row. -/
def seedClient (cid0 : Int) (i : Fin 3) : Client :=
  choice3
    { id := cid0 + 1, name := ("TechCorp Inc."), contact_email := ("contact@techcorp.com") }
    { id := cid0 + 2, name := ("DesignStudio Pro"), contact_email := ("hello@designstudio.com") }
    { id := cid0 + 3, name := ("Startup Ventures"), contact_email := ("founders@startup.io") }
    i

/-- The i-th seeded project row. -/
def seedProject (cid0 pid0 : Int) (today : CalDate) (r : SeedParams) (i : Fin 5) : Project :=
  let c := seedClient cid0 (r.projClient i)
  { id := pid0 + i.val + 1,
    name := ("Project ") ++ firstWord c.name ++ (" ") ++ toString (i.val + 1),
    client_id := some c.id,
    status := choice3 ("active") ("completed") ("on-hold") (r.projStatus i),
    deadline := dateAdd today (r.projDeadline i),
    budget := (r.projBudget i : Rat) }

/-- The j-th seeded time entry row. -/
def seedEntry (cid0 pid0 te0 : Int) (today : CalDate) (r : SeedParams) (j : Fin 20) : TimeEntry :=
  let p := seedProject cid0 pid0 today r (r.entryProject j)
  { id := te0 + j.val + 1,
    project_id := p.id,
    date := dateSub today (r.entryAge j),
    hours := r.entryHours j,
    description := ("Development and testing") }

/-- The i-th seeded invoice row. -/
def seedInvoice (cid0 pid0 inv0 : Int) (today : CalDate) (r : SeedParams) (i : Fin 4) : Invoice :=
  let p := seedProject cid0 pid0 today r (r.invProject i)
  { id := inv0 + i.val + 1,
    project_id := p.id,
    amount := (r.invAmount i : Rat),
    date_issued := dateSub today (r.invAge i),
    status := choice3 ("draft") ("sent") ("paid") (r.invStatus i) }

/-- The three seeded user rows. -/
def seedUsers (uid0 cid0 : Int) (r : SeedParams) : List User :=
  [{ id := uid0 + 1, username := ("admin"), hashed_password := r.hash ("admin"),
     role := ("admin"), client_id := none },
   { id := uid0 + 2, username := ("freelancer"), hashed_password := r.hash ("freelancer"),
     role := ("freelancer"), client_id := none },
   { id := uid0 + 3, username := ("client"), hashed_password := r.hash ("client"),
     role := ("client"), client_id := some (cid0 + 1) }]

/-- init_db: when any User row exists the store is returned untouched,
otherwise 3 clients, 3 users, 5 projects, 20 time entries and 4 invoices
are inserted. -/
def init_db (s : Store) (today : CalDate) (r : SeedParams) : Store :=
  if s.users = [] then
    let cid0 := maxIdI (s.clients.map (fun c => c.id))
    let uid0 := maxIdI (s.users.map (fun u => u.id))
    let pid0 := maxIdI (s.projects.map (fun p => p.id))
    let te0 := maxIdI (s.time_entries.map (fun e => e.id))
    let inv0 := maxIdI (s.invoices.map (fun i => i.id))
    { users := s.users ++ seedUsers uid0 cid0 r,
      clients := s.clients ++ List.ofFn (seedClient cid0),
      projects := s.projects ++ List.ofFn (seedProject cid0 pid0 today r),
      time_entries := s.time_entries ++ List.ofFn (seedEntry cid0 pid0 te0 today r),
      invoices := s.invoices ++ List.ofFn (seedInvoice cid0 pid0 inv0 today r) }
  else s

/-- A fixed choice of seed randomness and hashing, standing for one
possible run of the random module. -/
def defaultSeedParams : SeedParams :=
  { hash := fun t => t, projClient := fun _ => 0, projStatus := fun _ => 0,
    projDeadline := fun _ => 10, projBudget := fun _ => 1000,
    entryProject := fun _ => 0, entryAge := fun _ => 0, entryHours := fun _ => 1,
    invProject := fun _ => 0, invAmount := fun _ => 500, invAge := fun _ => 0,
    invStatus := fun _ => 0 }

/-! ### Concrete fixtures used by witnesses and counterexamples -/

/-- A client-role user attached to client 1. -/
def clientUser : User :=
  { id := 3, username := ("client"), hashed_password := ("x"),
    role := ("client"), client_id := some 1 }

/-- An admin-role user. -/
def adminUser : User :=
  { id := 1, username := ("admin"), hashed_password := ("x"),
    role := ("admin"), client_id := none }

/-- A freelancer-role user. -/
def freelancerUser : User :=
  { id := 2, username := ("freelancer"), hashed_password := ("x"),
    role := ("freelancer"), client_id := none }

/-- A small populated store: two clients, two projects (one per client),
two time entries and two invoices. -/
def sampleStore : Store :=
  { users := [adminUser, clientUser],
    clients := [{ id := 1, name := ("Acme"), contact_email := ("a@acme.io") },
                { id := 2, name := ("Globex"), contact_email := ("g@globex.io") }],
    projects := [{ id := 1, name := ("P1"), client_id := some 1, status := ("active"),
                   deadline := { year := 2026, month := 1, day := 1 }, budget := 100 },
                 { id := 2, name := ("P2"), client_id := some 2, status := ("active"),
                   deadline := { year := 2026, month := 1, day := 1 }, budget := 200 }],
    time_entries := [{ id := 1, project_id := 1, date := { year := 2025, month := 6, day := 1 },
                       hours := 2, description := ("w") },
                     { id := 2, project_id := 2, date := { year := 2025, month := 6, day := 2 },
                       hours := 3, description := ("w") }],
    invoices := [{ id := 1, project_id := 1, amount := 100,
                   date_issued := { year := 2025, month := 5, day := 1 }, status := ("paid") },
                 { id := 2, project_id := 2, amount := 50,
                   date_issued := { year := 2025, month := 5, day := 2 }, status := ("sent") }] }

/-- The client-role total_hours formula as claim C2 words it: entries
of visible projects whose date month AND year both match today. -/
def total_hours_claimed (u : User) (s : Store) (today : CalDate) : Rat :=
  ((s.time_entries.filter (fun e =>
      e.project_id ∈ (s.projects.filter
        (fun p => p.client_id = u.client_id)).map (fun p => p.id) ∧
      e.date.month = today.month ∧ e.date.year = today.year)).map
      (fun e => e.hours)).sum

/-- Store with one visible project and one entry dated in the current
month number of a PAST year. -/
def yearMixStore : Store :=
  { users := [clientUser],
    clients := [{ id := 1, name := ("Acme"), contact_email := ("a@acme.io") }],
    projects := [{ id := 1, name := ("P1"), client_id := some 1, status := ("active"),
                   deadline := { year := 2026, month := 1, day := 1 }, budget := 100 }],
    time_entries := [{ id := 1, project_id := 1,
                       date := { year := 2024, month := 6, day := 1 },
                       hours := 7, description := ("w") }],
    invoices := [] }

/-- Store with one project that has no time entries at all. -/
def emptyProjectStore : Store :=
  { users := [adminUser],
    clients := [{ id := 1, name := ("Acme"), contact_email := ("a@acme.io") }],
    projects := [{ id := 1, name := ("P1"), client_id := some 1, status := ("active"),
                   deadline := { year := 2026, month := 1, day := 1 }, budget := 100 }],
    time_entries := [],
    invoices := [] }

/-- The reports output of the admin user on the entryless-project
store. -/
def reportsOut3 : ReportsOutput :=
  { project_data := [{ name := ("P1"), hours := 0 }],
    monthly_data := [], client_data := [],
    max_hours := 0, max_monthly := 1, max_client := 1 }

/-- Store with one paid invoice and an entryless project. -/
def paidStore : Store :=
  { users := [adminUser],
    clients := [{ id := 1, name := ("Acme"), contact_email := ("a@acme.io") }],
    projects := [{ id := 1, name := ("P1"), client_id := some 1, status := ("active"),
                   deadline := { year := 2026, month := 1, day := 1 }, budget := 100 }],
    time_entries := [],
    invoices := [{ id := 1, project_id := 1, amount := 100,
                   date_issued := { year := 2025, month := 5, day := 1 },
                   status := ("paid") }] }

/-- The reports output of the admin user on paidStore. -/
def reportsOut7 : ReportsOutput :=
  { project_data := [{ name := ("P1"), hours := 0 }],
    monthly_data := [{ month := ("2025-05"), amount := 100 }],
    client_data := [{ name := ("Acme"), amount := 100 }],
    max_hours := 0, max_monthly := 100, max_client := 100 }

/-- The store reached from emptyProjectStore by a POST /timelogs with
hours = -5 (the handler accepts any float). -/
def negStore : Store :=
  (add_timelog adminUser emptyProjectStore 1 (-5) ("w") ("2025-06-01")).2

instance : IsTotal MonthRow (fun a b => a.month ≤ b.month) :=
  ⟨fun a b => le_total a.month b.month⟩

instance : IsTrans MonthRow (fun a b => a.month ≤ b.month) :=
  ⟨fun _ _ _ hab hbc => le_trans hab hbc⟩

/-! ### Helper: destructuring a successful reports_page result -/

/-- Field characterization of a successful reports_page result. -/
theorem reports_page_fields (u : User) (s : Store) :
    ∀ out, reports_page u s = some out →
      ∃ mrev crev : List (String × Rat),
        revenueLoop s (reportsPaid u s) [] [] = some (mrev, crev)
        ∧ out.project_data = reportsProjectData u s
        ∧ out.monthly_data = sortMonthly mrev
        ∧ out.client_data = sortClient crev
        ∧ out.max_hours = pyMax (out.project_data.map (fun r => r.hours)) 1
        ∧ out.max_monthly = pyMax (out.monthly_data.map (fun r => r.amount)) 1
        ∧ out.max_client = pyMax (out.client_data.map (fun r => r.amount)) 1 := by
  intro out hout
  unfold reports_page at hout
  rcases hrev2 : revenueLoop s (reportsPaid u s) [] [] with _ | ⟨mrev, crev⟩
  · rw [hrev2] at hout
    simp at hout
  · rw [hrev2] at hout
    simp only [Option.some.injEq] at hout
    subst hout
    exact ⟨mrev, crev, rfl, rfl, rfl, rfl, rfl, rfl, rfl⟩

/-! ### Claim C1: client visibility -/

/-- Claim C1: for a client-role user, every project returned by
GET /projects, GET /timelogs and GET /reports carries the client_id of
that user, and every time entry of GET /timelogs and every invoice of
GET /invoices references a project of that visible set. -/
theorem client_visibility (u : User) (s : Store) (h : u.role = ("client")) :
    (∀ p ∈ projects_page u s, p.client_id = u.client_id) ∧
    (∀ p ∈ (timelogs_page u s).projects, p.client_id = u.client_id) ∧
    (∀ e ∈ (timelogs_page u s).entries,
        e.project_id ∈ (s.projects.filter
          (fun p => p.client_id = u.client_id)).map (fun p => p.id)) ∧
    (∀ i ∈ invoices_page u s,
        i.project_id ∈ (s.projects.filter
          (fun p => p.client_id = u.client_id)).map (fun p => p.id)) ∧
    (∀ out, reports_page u s = some out →
        out.project_data.map (fun r => r.name)
          = (s.projects.filter (fun p => p.client_id = u.client_id)).map
              (fun p => p.name)) := by
  refine ⟨?_, ?_, ?_, ?_, ?_⟩
  · intro p hp
    simp only [projects_page, h, if_true, List.mem_filter, decide_eq_true_eq] at hp
    exact hp.2
  · intro p hp
    simp only [timelogs_page, h, if_true, List.mem_filter, decide_eq_true_eq] at hp
    exact hp.2
  · intro e he
    simp only [timelogs_page, h, if_true, List.mem_insertionSort, List.mem_filter,
      decide_eq_true_eq] at he
    exact he.2
  · intro i hi
    simp only [invoices_page, h, if_true, List.mem_filter, decide_eq_true_eq] at hi
    exact hi.2
  · intro out hout
    obtain ⟨mrev, crev, _, hpd, _, _, _, _, _⟩ := reports_page_fields u s out hout
    rw [hpd]
    simp [reportsProjectData, reportsProjects, h, List.map_map, Function.comp]

/-- Witness for C1 at the concrete client user and sample store. -/
theorem client_visibility_witness :
    clientUser.role = ("client") ∧
    ((∀ p ∈ projects_page clientUser sampleStore, p.client_id = clientUser.client_id) ∧
     (∀ p ∈ (timelogs_page clientUser sampleStore).projects,
        p.client_id = clientUser.client_id) ∧
     (∀ e ∈ (timelogs_page clientUser sampleStore).entries,
        e.project_id ∈ (sampleStore.projects.filter
          (fun p => p.client_id = clientUser.client_id)).map (fun p => p.id)) ∧
     (∀ i ∈ invoices_page clientUser sampleStore,
        i.project_id ∈ (sampleStore.projects.filter
          (fun p => p.client_id = clientUser.client_id)).map (fun p => p.id)) ∧
     (∀ out, reports_page clientUser sampleStore = some out →
        out.project_data.map (fun r => r.name)
          = (sampleStore.projects.filter
              (fun p => p.client_id = clientUser.client_id)).map (fun p => p.name))) :=
  ⟨rfl, client_visibility clientUser sampleStore rfl⟩

/-! ### Claim C4: POST /timelogs forbidden for clients -/

/-- Claim C4: for a client-role user, POST /timelogs answers a 403
authorization error for every input and leaves the store unchanged. -/
theorem add_timelog_client_forbidden (u : User) (s : Store) (pid : Int) (hours : Rat)
    (descr dstr : String) (h : u.role = ("client")) :
    add_timelog u s pid hours descr dstr
      = (.forbidden 403 ("Clients cannot add time logs"), s) := by
  simp [add_timelog, h]

/-- Witness for C4 at the concrete client user and sample store. -/
theorem add_timelog_client_forbidden_witness :
    clientUser.role = ("client") ∧
    add_timelog clientUser sampleStore 1 2 ("w") ("2025-06-01")
      = (.forbidden 403 ("Clients cannot add time logs"), sampleStore) :=
  ⟨rfl, add_timelog_client_forbidden clientUser sampleStore 1 2 ("w") ("2025-06-01") rfl⟩

/-! ### Claim C5: POST /timelogs date validation -/

/-- Claim C5: for a non-client user, POST /timelogs with a date string
that does not parse as a valid calendar date fails with a validation
error and leaves the store unchanged; with a well-formed date it appends
exactly one TimeEntry with the given fields and redirects. -/
theorem add_timelog_validation (u : User) (s : Store) (pid : Int) (hours : Rat)
    (descr dstr : String) (hrole : u.role ≠ ("client")) :
    (parseDateStr dstr = none →
      add_timelog u s pid hours descr dstr = (.validation_error, s)) ∧
    (∀ d, parseDateStr dstr = some d →
      add_timelog u s pid hours descr dstr
        = (.redirect ("/timelogs") 303,
           { s with time_entries := s.time_entries ++
               [{ id := newTimeEntryId s, project_id := pid, date := d,
                  hours := hours, description := descr }] })) := by
  constructor
  · intro hp
    simp [add_timelog, hrole, hp]
  · intro d hp
    simp [add_timelog, hrole, hp]

/-- Witness for C5: the invalid date 2024-02-30 is rejected with no row
created, while the valid leap date 2024-02-29 appends one row. -/
theorem add_timelog_validation_witness :
    (adminUser.role ≠ ("client") ∧
     parseDateStr ("2024-02-30") = none ∧
     add_timelog adminUser sampleStore 1 2 ("w") ("2024-02-30")
       = (.validation_error, sampleStore)) ∧
    (parseDateStr ("2024-02-29") = some { year := 2024, month := 2, day := 29 } ∧
     add_timelog adminUser sampleStore 1 2 ("w") ("2024-02-29")
       = (.redirect ("/timelogs") 303,
          { sampleStore with time_entries := sampleStore.time_entries ++
              [{ id := newTimeEntryId sampleStore, project_id := 1,
                 date := { year := 2024, month := 2, day := 29 }, hours := 2,
                 description := ("w") }] })) :=
  ⟨⟨by decide, by decide,
     (add_timelog_validation adminUser sampleStore 1 2 ("w") ("2024-02-30")
       (by decide)).1 (by decide)⟩,
   ⟨by decide,
     (add_timelog_validation adminUser sampleStore 1 2 ("w") ("2024-02-29")
       (by decide)).2 { year := 2024, month := 2, day := 29 } (by decide)⟩⟩

/-! ### Claim C10: no referential check on project_id -/

/-- Claim C10: for a non-client user and a well-formed date, POST
/timelogs succeeds for any project_id, even one matching no Project row,
producing a dangling TimeEntry. -/
theorem add_timelog_no_fk_check (u : User) (s : Store) (pid : Int) (hours : Rat)
    (descr dstr : String) (d : CalDate) (hrole : u.role ≠ ("client"))
    (hd : parseDateStr dstr = some d)
    (hpid : pid ∉ s.projects.map (fun p => p.id)) :
    (add_timelog u s pid hours descr dstr).1 = .redirect ("/timelogs") 303 ∧
    ∃ e ∈ (add_timelog u s pid hours descr dstr).2.time_entries,
      e.project_id = pid ∧
      e.project_id ∉ ((add_timelog u s pid hours descr dstr).2.projects.map
        (fun p => p.id)) := by
  constructor
  · simp [add_timelog, hrole, hd]
  · refine ⟨{ id := newTimeEntryId s, project_id := pid, date := d, hours := hours,
              description := descr }, ?_, rfl, ?_⟩
    · simp [add_timelog, hrole, hd]
    · simpa [add_timelog, hrole, hd] using hpid

/-- Witness for C10: project_id 99 references no project of the sample
store and a dangling row is still created. -/
theorem add_timelog_no_fk_check_witness :
    (adminUser.role ≠ ("client") ∧
     parseDateStr ("2025-06-01") = some { year := 2025, month := 6, day := 1 } ∧
     (99 : Int) ∉ sampleStore.projects.map (fun p => p.id)) ∧
    ((add_timelog adminUser sampleStore 99 2 ("w") ("2025-06-01")).1
        = .redirect ("/timelogs") 303 ∧
     ∃ e ∈ (add_timelog adminUser sampleStore 99 2 ("w") ("2025-06-01")).2.time_entries,
       e.project_id = 99 ∧
       e.project_id ∉ ((add_timelog adminUser sampleStore 99 2
         ("w") ("2025-06-01")).2.projects.map (fun p => p.id))) :=
  ⟨⟨by decide, by decide, by decide⟩,
   add_timelog_no_fk_check adminUser sampleStore 99 2 ("w") ("2025-06-01")
     { year := 2025, month := 6, day := 1 } (by decide) (by decide) (by decide)⟩

/-! ### Claim C9: seeding counts and idempotence -/

/-- Claim C9: on the empty store init_db inserts exactly 3 clients, 3
users with roles admin, freelancer and client, 5 projects, 20 time
entries and 4 invoices; on any store already holding a user it performs
no insert at all. -/
theorem init_db_seed_counts (s : Store) (today : CalDate) (r : SeedParams) :
    (s = emptyStore →
      (init_db s today r).clients.length = 3 ∧
      (init_db s today r).users.map (fun u => u.role)
        = [("admin"), ("freelancer"), ("client")] ∧
      (init_db s today r).projects.length = 5 ∧
      (init_db s today r).time_entries.length = 20 ∧
      (init_db s today r).invoices.length = 4) ∧
    (s.users ≠ [] → init_db s today r = s) := by
  constructor
  · intro hs
    subst hs
    refine ⟨?_, ?_, ?_, ?_, ?_⟩ <;>
      simp [init_db, emptyStore, seedUsers, List.length_ofFn]
  · intro hu
    simp [init_db, hu]

/-- Witness for C9: the empty store gets the five row groups, and the
already-seeded sample store is returned unchanged. -/
theorem init_db_seed_counts_witness :
    ((init_db emptyStore { year := 2025, month := 6, day := 15 }
        defaultSeedParams).clients.length = 3 ∧
     (init_db emptyStore { year := 2025, month := 6, day := 15 }
        defaultSeedParams).users.map (fun u => u.role)
       = [("admin"), ("freelancer"), ("client")] ∧
     (init_db emptyStore { year := 2025, month := 6, day := 15 }
        defaultSeedParams).projects.length = 5 ∧
     (init_db emptyStore { year := 2025, month := 6, day := 15 }
        defaultSeedParams).time_entries.length = 20 ∧
     (init_db emptyStore { year := 2025, month := 6, day := 15 }
        defaultSeedParams).invoices.length = 4) ∧
    (sampleStore.users ≠ [] ∧
     init_db sampleStore { year := 2025, month := 6, day := 15 }
       defaultSeedParams = sampleStore) :=
  ⟨(init_db_seed_counts emptyStore { year := 2025, month := 6, day := 15 }
      defaultSeedParams).1 rfl,
   ⟨by decide,
    (init_db_seed_counts sampleStore { year := 2025, month := 6, day := 15 }
      defaultSeedParams).2 (by decide)⟩⟩

/-! ### Claim C6: dashboard total_earned -/

/-- Claim C6: dashboard total_earned is, for a client, the sum of
amounts of paid invoices whose project belongs to the client of that
user; for an admin or freelancer the sum over all paid invoices; and 0
when no paid invoice exists. -/
theorem dashboard_total_earned_spec (u : User) (s : Store) (today : CalDate) :
    (u.role = ("client") →
      (dashboard u s today).total_earned
        = ((s.invoices.filter (fun i => i.status = ("paid") ∧
            ∃ p ∈ s.projects, p.id = i.project_id ∧ p.client_id = u.client_id)).map
            (fun i => i.amount)).sum) ∧
    ((u.role = ("admin") ∨ u.role = ("freelancer")) →
      (dashboard u s today).total_earned
        = ((s.invoices.filter (fun i => i.status = ("paid"))).map
            (fun i => i.amount)).sum) ∧
    (s.invoices.filter (fun i => i.status = ("paid")) = [] →
      (dashboard u s today).total_earned = 0) := by
  refine ⟨?_, ?_, ?_⟩
  · intro hrole
    simp only [dashboard, hrole, if_true]
    have hfil : (s.invoices.filter (fun i =>
        i.project_id ∈ (s.projects.filter
          (fun p => p.client_id = u.client_id)).map (fun p => p.id)
          ∧ i.status = ("paid")))
        = (s.invoices.filter (fun i => i.status = ("paid") ∧
            ∃ p ∈ s.projects, p.id = i.project_id ∧ p.client_id = u.client_id)) := by
      apply List.filter_congr
      intro i _
      rw [decide_eq_decide]
      simp only [List.mem_map, List.mem_filter, decide_eq_true_eq]
      constructor
      · rintro ⟨⟨p, ⟨hp, hc⟩, hid⟩, hs⟩
        exact ⟨hs, p, hp, hid, hc⟩
      · rintro ⟨hs, p, hp, hid, hc⟩
        exact ⟨⟨p, ⟨hp, hc⟩, hid⟩, hs⟩
    rw [hfil]
  · rintro (h | h) <;> simp [dashboard, h]
  · intro hpaid
    have hall : ∀ i ∈ s.invoices, ¬ (i.status = ("paid")) := by
      intro i hi
      have h2 := List.filter_eq_nil_iff.mp hpaid i hi
      simpa using h2
    by_cases h : u.role = ("client")
    · simp only [dashboard, h, if_true]
      have hnil : (s.invoices.filter (fun i =>
          i.project_id ∈ (s.projects.filter
            (fun p => p.client_id = u.client_id)).map (fun p => p.id)
            ∧ i.status = ("paid"))) = [] := by
        rw [List.filter_eq_nil_iff]
        intro i hi
        simp only [decide_eq_true_eq, not_and]
        intro _
        exact hall i hi
      rw [hnil]
      simp
    · simp only [dashboard, h, if_false]
      rw [hpaid]
      simp

/-- Witness for C6 at the client and admin users of the sample store. -/
theorem dashboard_total_earned_spec_witness :
    (clientUser.role = ("client") ∧
     (dashboard clientUser sampleStore { year := 2025, month := 6, day := 15 }).total_earned
       = ((sampleStore.invoices.filter (fun i => i.status = ("paid") ∧
           ∃ p ∈ sampleStore.projects, p.id = i.project_id ∧
             p.client_id = clientUser.client_id)).map (fun i => i.amount)).sum) ∧
    ((adminUser.role = ("admin") ∨ adminUser.role = ("freelancer")) ∧
     (dashboard adminUser sampleStore { year := 2025, month := 6, day := 15 }).total_earned
       = ((sampleStore.invoices.filter (fun i => i.status = ("paid"))).map
           (fun i => i.amount)).sum) :=
  ⟨⟨rfl, (dashboard_total_earned_spec clientUser sampleStore
      { year := 2025, month := 6, day := 15 }).1 rfl⟩,
   ⟨Or.inl rfl, (dashboard_total_earned_spec adminUser sampleStore
      { year := 2025, month := 6, day := 15 }).2.1 (Or.inl rfl)⟩⟩

/-! ### Claim C2: dashboard total_hours month filter -/

/-- Splitting a filtered hour sum along two pointwise-disjoint
conditions. -/
theorem filter_or_sum (es : List TimeEntry) (p q : TimeEntry → Bool)
    (hdisj : ∀ e ∈ es, ¬(p e = true ∧ q e = true)) :
    ((es.filter (fun e => p e || q e)).map (fun e => e.hours)).sum
      = ((es.filter p).map (fun e => e.hours)).sum
        + ((es.filter q).map (fun e => e.hours)).sum := by
  induction es with
  | nil => simp
  | cons a t ih =>
    have hd : ¬(p a = true ∧ q a = true) := hdisj a (by simp)
    have iht := ih (fun e he => hdisj e (by simp [he]))
    cases hp : p a
    · cases hq : q a
      · simpa [List.filter_cons, hp, hq] using iht
      · simp [List.filter_cons, hp, hq, iht]
        ring
    · cases hq : q a
      · simp [List.filter_cons, hp, hq, iht]
        ring
      · exact absurd ⟨hp, hq⟩ hd

/-- An hour sum taken project by project over projects with distinct
ids equals the flat sum over the entries of those projects. -/
theorem flatMap_filter_sum (es : List TimeEntry) (cond : TimeEntry → Bool) :
    ∀ ps : List Project, (ps.map (fun p => p.id)).Nodup →
      (((ps.flatMap (fun p => es.filter (fun e => e.project_id = p.id))).filter cond).map
          (fun e => e.hours)).sum
        = ((es.filter (fun e =>
            decide (e.project_id ∈ ps.map (fun p => p.id)) && cond e)).map
            (fun e => e.hours)).sum := by
  intro ps
  induction ps with
  | nil =>
    intro _
    simp
  | cons p ps ih =>
    intro hnd
    have hnotin : p.id ∉ ps.map (fun q => q.id) :=
      (List.nodup_cons.mp (by simpa using hnd)).1
    have hnd2 : (ps.map (fun q => q.id)).Nodup :=
      (List.nodup_cons.mp (by simpa using hnd)).2
    rw [List.flatMap_cons, List.filter_append, List.map_append, List.sum_append, ih hnd2]
    have hpred : (es.filter (fun e =>
        decide (e.project_id ∈ (p :: ps).map (fun q => q.id)) && cond e))
      = es.filter (fun e =>
          (decide (e.project_id = p.id) && cond e)
            || (decide (e.project_id ∈ ps.map (fun q => q.id)) && cond e)) := by
      apply List.filter_congr
      intro e _
      simp only [List.map_cons, List.mem_cons, Bool.decide_or, Bool.and_or_distrib_right]
    have hsplit := filter_or_sum es
        (fun e => decide (e.project_id = p.id) && cond e)
        (fun e => decide (e.project_id ∈ ps.map (fun q => q.id)) && cond e)
        (by
          intro e _ hPQ
          simp only [Bool.and_eq_true, decide_eq_true_eq] at hPQ
          exact hnotin (hPQ.1.1 ▸ hPQ.2.1))
    rw [hpred, hsplit, List.filter_filter]
    have hcomm : (es.filter (fun e => cond e && decide (e.project_id = p.id)))
        = es.filter (fun e => decide (e.project_id = p.id) && cond e) := by
      apply List.filter_congr
      intro e _
      exact Bool.and_comm (cond e) (decide (e.project_id = p.id))
    rw [hcomm]

/-- Counterexample to C2 as stated: with today 2025-06-15, the entry of
2024-06-01 has the same month number but a different year, yet the
dashboard counts its 7 hours; the claim says it contributes nothing, so
the claimed total is 0. -/
theorem dashboard_total_hours_cex :
    (dashboard clientUser yearMixStore
        { year := 2025, month := 6, day := 15 }).total_hours = 7 ∧
    total_hours_claimed clientUser yearMixStore
        { year := 2025, month := 6, day := 15 } = 0 := by
  constructor
  · simp [dashboard, yearMixStore, clientUser, timeEntriesOf]
  · simp [total_hours_claimed, yearMixStore, clientUser]

/-- Claim C2 amended: for a client-role user (over projects with
distinct ids), dashboard total_hours sums the hours of the entries of
visible projects whose date MONTH equals the month of today — the year
is ignored, so an entry of the same month number in any year counts. -/
theorem dashboard_total_hours_spec (u : User) (s : Store) (today : CalDate)
    (hrole : u.role = ("client")) (hnd : (s.projects.map (fun p => p.id)).Nodup) :
    (dashboard u s today).total_hours
      = ((s.time_entries.filter (fun e =>
          e.project_id ∈ (s.projects.filter
            (fun p => p.client_id = u.client_id)).map (fun p => p.id) ∧
          e.date.month = today.month)).map (fun e => e.hours)).sum := by
  have hnd2 : ((s.projects.filter (fun p => p.client_id = u.client_id)).map
      (fun p => p.id)).Nodup :=
    List.Nodup.sublist (List.Sublist.map _ (List.filter_sublist _)) hnd
  simp only [dashboard, hrole, if_true, timeEntriesOf]
  rw [flatMap_filter_sum s.time_entries (fun e => decide (e.date.month = today.month))
      (s.projects.filter (fun p => p.client_id = u.client_id)) hnd2]
  simp only [Bool.decide_and]

/-- Witness for C2 amended at the client user of the sample store. -/
theorem dashboard_total_hours_spec_witness :
    (clientUser.role = ("client") ∧
     (sampleStore.projects.map (fun p => p.id)).Nodup) ∧
    (dashboard clientUser sampleStore
        { year := 2025, month := 6, day := 15 }).total_hours
      = ((sampleStore.time_entries.filter (fun e =>
          e.project_id ∈ (sampleStore.projects.filter
            (fun p => p.client_id = clientUser.client_id)).map (fun p => p.id) ∧
          e.date.month = 6)).map (fun e => e.hours)).sum :=
  ⟨⟨rfl, by decide⟩,
   dashboard_total_hours_spec clientUser sampleStore
     { year := 2025, month := 6, day := 15 } rfl (by decide)⟩

/-! ### Claim C3: chart-scaling maxima of the reports -/

/-- Lower bound property of a left max fold. -/
theorem foldl_max_le (xs : List Rat) :
    ∀ a : Rat, a ≤ xs.foldl max a ∧ ∀ y ∈ xs, y ≤ xs.foldl max a := by
  induction xs with
  | nil =>
    intro a
    exact ⟨le_refl a, by simp⟩
  | cons x t ih =>
    intro a
    constructor
    · exact le_trans (le_max_left a x) (ih (max a x)).1
    · intro y hy
      rcases List.mem_cons.mp hy with h | h
      · subst h
        exact le_trans (le_max_right a y) (ih (max a y)).1
      · exact (ih (max a x)).2 y h

/-- A left max fold returns its seed or one of the elements. -/
theorem foldl_max_mem (xs : List Rat) :
    ∀ a : Rat, xs.foldl max a = a ∨ xs.foldl max a ∈ xs := by
  induction xs with
  | nil =>
    intro a
    exact Or.inl rfl
  | cons x t ih =>
    intro a
    rw [List.foldl_cons]
    rcases ih (max a x) with h | h
    · rcases max_choice a x with hmax | hmax
      · exact Or.inl (by rw [h, hmax])
      · exact Or.inr (by rw [h, hmax]; exact List.mem_cons_self x t)
    · exact Or.inr (List.mem_cons_of_mem x h)

/-- Python max(l, default=1): 1 on the empty list, otherwise the
maximum of the elements. -/
theorem pyMax_spec (l : List Rat) :
    (l = [] → pyMax l 1 = 1) ∧
    (l ≠ [] → pyMax l 1 ∈ l ∧ ∀ y ∈ l, y ≤ pyMax l 1) := by
  cases l with
  | nil =>
    exact ⟨fun _ => rfl, fun h => absurd rfl h⟩
  | cons x xs =>
    refine ⟨(fun h => nomatch h), fun _ => ?_⟩
    constructor
    · show xs.foldl max x ∈ x :: xs
      rcases foldl_max_mem xs x with h | h
      · rw [h]
        exact List.mem_cons_self x xs
      · exact List.mem_cons_of_mem x h
    · intro y hy
      rcases List.mem_cons.mp hy with h | h
      · subst h
        exact (foldl_max_le xs y).1
      · exact (foldl_max_le xs x).2 y h

/-- pyMax over a mapped list, phrased on the row list. -/
theorem pyMax_field {β : Type} (l : List β) (f : β → Rat) (m : Rat)
    (hm : m = pyMax (l.map f) 1) :
    (l = [] → m = 1) ∧ (l ≠ [] → m ∈ l.map f ∧ ∀ y ∈ l.map f, y ≤ m) := by
  subst hm
  constructor
  · intro h
    subst h
    rfl
  · intro h
    exact (pyMax_spec (l.map f)).2 (by simpa using h)

/-- Counterexample to C3 as stated: with one visible project and no
time entries, project_data is the one-element list with hours 0 and
max_hours is 0, not a positive number — the claimed "never 0" fails. -/
theorem reports_max_cex :
    (reports_page adminUser emptyProjectStore).map (fun o => o.max_hours)
      = some 0 := by
  rfl

/-- Claim C3 amended: max_hours, max_monthly and max_client each equal
the maximum of the hours/amount values of their list, or 1 when that
list is empty; when the list is nonempty and its maximum is 0 (for
example a project with no entries) the value is 0, so "never 0" does
not hold. -/
theorem reports_max_spec (u : User) (s : Store) (out : ReportsOutput)
    (hout : reports_page u s = some out) :
    ((out.project_data = [] → out.max_hours = 1) ∧
     (out.project_data ≠ [] →
        out.max_hours ∈ out.project_data.map (fun r => r.hours) ∧
        ∀ y ∈ out.project_data.map (fun r => r.hours), y ≤ out.max_hours)) ∧
    ((out.monthly_data = [] → out.max_monthly = 1) ∧
     (out.monthly_data ≠ [] →
        out.max_monthly ∈ out.monthly_data.map (fun r => r.amount) ∧
        ∀ y ∈ out.monthly_data.map (fun r => r.amount), y ≤ out.max_monthly)) ∧
    ((out.client_data = [] → out.max_client = 1) ∧
     (out.client_data ≠ [] →
        out.max_client ∈ out.client_data.map (fun r => r.amount) ∧
        ∀ y ∈ out.client_data.map (fun r => r.amount), y ≤ out.max_client)) := by
  obtain ⟨mrev, crev, hrev, hpd, hmd, hcd, hmh, hmm, hmc⟩ :=
    reports_page_fields u s out hout
  exact ⟨pyMax_field out.project_data (fun r => r.hours) out.max_hours hmh,
         pyMax_field out.monthly_data (fun r => r.amount) out.max_monthly hmm,
         pyMax_field out.client_data (fun r => r.amount) out.max_client hmc⟩

/-- Witness for C3 amended at the admin user of the store with one
entryless project. -/
theorem reports_max_spec_witness :
    reports_page adminUser emptyProjectStore = some reportsOut3 ∧
    ((reportsOut3.project_data = [] → reportsOut3.max_hours = 1) ∧
     (reportsOut3.project_data ≠ [] →
        reportsOut3.max_hours ∈ reportsOut3.project_data.map (fun r => r.hours) ∧
        ∀ y ∈ reportsOut3.project_data.map (fun r => r.hours),
          y ≤ reportsOut3.max_hours)) :=
  ⟨rfl, (reports_max_spec adminUser emptyProjectStore reportsOut3 rfl).1⟩

/-! ### Claim C7: reports monthly grouping -/

/-- Querying a dict after d[k] = d.get(k, 0) + v: the filtered value
sum grows by v exactly at the added key. -/
theorem dictAdd_filter_sum (ka : String) (v : Rat) (k : String) :
    ∀ d : List (String × Rat),
      (((dictAdd d ka v).filter (fun kv => kv.1 = k)).map (fun kv => kv.2)).sum
        = ((d.filter (fun kv => kv.1 = k)).map (fun kv => kv.2)).sum
          + (if ka = k then v else 0) := by
  intro d
  induction d with
  | nil =>
    by_cases h : ka = k <;> simp [dictAdd, List.filter_cons, h]
  | cons a rest ih =>
    obtain ⟨k1, v1⟩ := a
    simp only [dictAdd]
    by_cases h1 : k1 = ka
    · subst h1
      rw [if_pos rfl]
      by_cases h2 : k1 = k
      · subst h2
        simp [List.filter_cons]
        ring
      · simp [List.filter_cons, h2]
    · rw [if_neg h1]
      by_cases h2 : k1 = k
      · subst h2
        simp [List.filter_cons, ih]
        ring
      · simp [List.filter_cons, h2, ih]

/-- The keys of a dict after d[k] = d.get(k, 0) + v: unchanged when the
key is present, appended otherwise. -/
theorem dictAdd_keys (ka : String) (v : Rat) :
    ∀ d : List (String × Rat),
      (dictAdd d ka v).map (fun kv => kv.1)
        = if ka ∈ d.map (fun kv => kv.1) then d.map (fun kv => kv.1)
          else d.map (fun kv => kv.1) ++ [ka] := by
  intro d
  induction d with
  | nil => simp [dictAdd]
  | cons a rest ih =>
    obtain ⟨k1, v1⟩ := a
    simp only [dictAdd]
    by_cases h1 : k1 = ka
    · subst h1
      simp [List.mem_cons]
    · rw [if_neg h1]
      have hne : ka ≠ k1 := Ne.symm h1
      by_cases h2 : ka ∈ rest.map (fun kv => kv.1)
      · simp [List.map_cons, ih, List.mem_cons, hne, h2]
      · simp [List.map_cons, ih, List.mem_cons, hne, h2]

/-- dictAdd preserves distinctness of the keys. -/
theorem dictAdd_keys_nodup (ka : String) (v : Rat) (d : List (String × Rat))
    (h : (d.map (fun kv => kv.1)).Nodup) :
    ((dictAdd d ka v).map (fun kv => kv.1)).Nodup := by
  rw [dictAdd_keys]
  by_cases h2 : ka ∈ d.map (fun kv => kv.1)
  · simpa [h2] using h
  · simp only [h2, if_false]
    simp [List.nodup_append, h, h2]

/-- Through the grouping loop, the filtered value sum of the monthly
dict grows by exactly the amounts of the invoices issued in month k. -/
theorem revenueLoop_monthly (s : Store) :
    ∀ (invs : List Invoice) (mrev crev m c : List (String × Rat)),
      revenueLoop s invs mrev crev = some (m, c) →
      ∀ k : String,
        ((m.filter (fun kv => kv.1 = k)).map (fun kv => kv.2)).sum
          = ((mrev.filter (fun kv => kv.1 = k)).map (fun kv => kv.2)).sum
            + ((invs.filter (fun i => formatYM i.date_issued = k)).map
                (fun i => i.amount)).sum := by
  intro invs
  induction invs with
  | nil =>
    intro mrev crev m c h k
    simp only [revenueLoop, Option.some.injEq, Prod.mk.injEq] at h
    obtain ⟨h1, h2⟩ := h
    subst h1
    simp
  | cons inv rest ih =>
    intro mrev crev m c h k
    simp only [revenueLoop] at h
    rcases hname : invClientName s inv with _ | cname
    · rw [hname] at h
      exact absurd h (by simp)
    · rw [hname] at h
      have hrec := ih _ _ _ _ h k
      rw [hrec, dictAdd_filter_sum, List.filter_cons]
      by_cases hk : formatYM inv.date_issued = k
      · simp [hk]
        ring
      · simp [hk]

/-- Through the grouping loop, the monthly dict keeps distinct keys. -/
theorem revenueLoop_nodup (s : Store) :
    ∀ (invs : List Invoice) (mrev crev m c : List (String × Rat)),
      revenueLoop s invs mrev crev = some (m, c) →
      (mrev.map (fun kv => kv.1)).Nodup →
      (m.map (fun kv => kv.1)).Nodup := by
  intro invs
  induction invs with
  | nil =>
    intro mrev crev m c h hnd
    simp only [revenueLoop, Option.some.injEq, Prod.mk.injEq] at h
    obtain ⟨h1, _⟩ := h
    subst h1
    exact hnd
  | cons inv rest ih =>
    intro mrev crev m c h hnd
    simp only [revenueLoop] at h
    rcases hname : invClientName s inv with _ | cname
    · rw [hname] at h
      exact absurd h (by simp)
    · rw [hname] at h
      exact ih _ _ _ _ h (dictAdd_keys_nodup _ _ _ hnd)

/-- Claim C7: a client-role user always gets empty monthly_data and
client_data; a non-client user gets monthly_data sorted ascending by
month string, with pairwise distinct months, where the amount filed
under month k is the sum of the amounts of ALL paid invoices whose
date_issued formats to k. -/
theorem reports_monthly_spec (u : User) (s : Store) (out : ReportsOutput)
    (hout : reports_page u s = some out) :
    (u.role = ("client") → out.monthly_data = [] ∧ out.client_data = []) ∧
    (u.role ≠ ("client") →
      out.monthly_data.Sorted (fun a b => a.month ≤ b.month) ∧
      (out.monthly_data.map (fun r => r.month)).Nodup ∧
      ∀ k : String,
        ((out.monthly_data.filter (fun r => r.month = k)).map
            (fun r => r.amount)).sum
          = (((s.invoices.filter (fun i => i.status = ("paid"))).filter
              (fun i => formatYM i.date_issued = k)).map (fun i => i.amount)).sum) := by
  obtain ⟨mrev, crev, hrev, hpd, hmd, hcd, _, _, _⟩ := reports_page_fields u s out hout
  constructor
  · intro hrole
    simp [reportsPaid, hrole, revenueLoop] at hrev
    obtain ⟨hm, hc⟩ := hrev
    subst hm
    subst hc
    rw [hmd, hcd]
    exact ⟨rfl, rfl⟩
  · intro hrole
    have hpaid : reportsPaid u s = s.invoices.filter (fun i => i.status = ("paid")) := by
      simp [reportsPaid, hrole]
    rw [hpaid] at hrev
    have hperm := List.perm_insertionSort (fun a b : MonthRow => a.month ≤ b.month)
        (mrev.map (fun kv => ({ month := kv.1, amount := kv.2 } : MonthRow)))
    have hnd0 : (mrev.map (fun kv => kv.1)).Nodup :=
      revenueLoop_nodup s _ [] [] mrev crev hrev (by simp)
    have hkeys : ((mrev.map (fun kv =>
        ({ month := kv.1, amount := kv.2 } : MonthRow))).map (fun r => r.month))
        = mrev.map (fun kv => kv.1) := by
      simp [List.map_map, Function.comp]
    refine ⟨?_, ?_, ?_⟩
    · rw [hmd, sortMonthly]
      exact List.sorted_insertionSort _ _
    · rw [hmd, sortMonthly]
      have hiff := (hperm.map (fun r => r.month)).nodup_iff
      rw [hkeys] at hiff
      exact hiff.mpr hnd0
    · intro k
      rw [hmd, sortMonthly]
      have h1 := ((hperm.filter (fun r => r.month = k)).map (fun r => r.amount)).sum_eq
      rw [h1]
      have h2 : (((mrev.map (fun kv =>
          ({ month := kv.1, amount := kv.2 } : MonthRow))).filter
            (fun r => r.month = k)).map (fun r => r.amount))
          = (mrev.filter (fun kv => kv.1 = k)).map (fun kv => kv.2) := by
        rw [List.filter_map, List.map_map]
        rfl
      rw [h2]
      have h3 := revenueLoop_monthly s _ [] [] mrev crev hrev k
      simpa using h3

/-- Witness for C7 at the admin user of the store with one paid
invoice. -/
theorem reports_monthly_spec_witness :
    reports_page adminUser paidStore = some reportsOut7 ∧
    adminUser.role ≠ ("client") ∧
    (reportsOut7.monthly_data.Sorted (fun a b => a.month ≤ b.month) ∧
     (reportsOut7.monthly_data.map (fun r => r.month)).Nodup ∧
     ∀ k : String,
       ((reportsOut7.monthly_data.filter (fun r => r.month = k)).map
           (fun r => r.amount)).sum
         = (((paidStore.invoices.filter (fun i => i.status = ("paid"))).filter
             (fun i => formatYM i.date_issued = k)).map (fun i => i.amount)).sum) :=
  ⟨rfl, by decide,
   (reports_monthly_spec adminUser paidStore reportsOut7 rfl).2 (by decide)⟩

/-! ### Claim C8: non-negativity of the computed sums -/

/-- Membership in the entries of a project implies membership in the
store. -/
theorem mem_timeEntriesOf {s : Store} {p : Project} {e : TimeEntry}
    (h : e ∈ timeEntriesOf s p) : e ∈ s.time_entries :=
  (List.mem_filter.mp h).1

/-- A mapped sum of non-negative values is non-negative. -/
theorem sum_map_nonneg {β : Type} (l : List β) (f : β → Rat)
    (h : ∀ x ∈ l, 0 ≤ f x) : 0 ≤ (l.map f).sum := by
  apply List.sum_nonneg
  intro x hx
  obtain ⟨b, hb, rfl⟩ := List.mem_map.mp hx
  exact h b hb

/-- dictSet keeps all dict values non-negative when the written value
is. -/
theorem dictSet_values_nonneg (k : Int) (v : Rat) (hv : 0 ≤ v) :
    ∀ d : List (Int × Rat), (∀ kv ∈ d, 0 ≤ kv.2) →
      ∀ kv ∈ dictSet d k v, 0 ≤ kv.2 := by
  intro d
  induction d with
  | nil =>
    intro _ kv hkv
    simp only [dictSet, List.mem_singleton] at hkv
    subst hkv
    exact hv
  | cons a rest ih =>
    intro hd kv hkv
    obtain ⟨k1, v1⟩ := a
    simp only [dictSet] at hkv
    by_cases h1 : k1 = k
    · rw [if_pos h1] at hkv
      rcases List.mem_cons.mp hkv with h2 | h2
      · subst h2
        exact hv
      · exact hd kv (List.mem_cons_of_mem _ h2)
    · rw [if_neg h1] at hkv
      rcases List.mem_cons.mp hkv with h2 | h2
      · subst h2
        exact hd (k1, v1) (List.mem_cons_self _ _)
      · exact ih (fun kv2 hkv2 => hd kv2 (List.mem_cons_of_mem _ hkv2)) kv h2

/-- dictAdd keeps all dict values non-negative when the added value
is. -/
theorem dictAdd_values_nonneg (k : String) (v : Rat) (hv : 0 ≤ v) :
    ∀ d : List (String × Rat), (∀ kv ∈ d, 0 ≤ kv.2) →
      ∀ kv ∈ dictAdd d k v, 0 ≤ kv.2 := by
  intro d
  induction d with
  | nil =>
    intro _ kv hkv
    simp only [dictAdd, List.mem_singleton] at hkv
    subst hkv
    exact hv
  | cons a rest ih =>
    intro hd kv hkv
    obtain ⟨k1, v1⟩ := a
    simp only [dictAdd] at hkv
    by_cases h1 : k1 = k
    · rw [if_pos h1] at hkv
      rcases List.mem_cons.mp hkv with h2 | h2
      · subst h2
        exact add_nonneg (hd (k1, v1) (List.mem_cons_self _ _)) hv
      · exact hd kv (List.mem_cons_of_mem _ h2)
    · rw [if_neg h1] at hkv
      rcases List.mem_cons.mp hkv with h2 | h2
      · subst h2
        exact hd (k1, v1) (List.mem_cons_self _ _)
      · exact ih (fun kv2 hkv2 => hd kv2 (List.mem_cons_of_mem _ hkv2)) kv h2

/-- The values of both revenue dicts stay non-negative through the
grouping loop when the invoice amounts are. -/
theorem revenueLoop_nonneg (s : Store) :
    ∀ (invs : List Invoice) (mrev crev m c : List (String × Rat)),
      revenueLoop s invs mrev crev = some (m, c) →
      (∀ i ∈ invs, 0 ≤ i.amount) →
      (∀ kv ∈ mrev, 0 ≤ kv.2) →
      (∀ kv ∈ crev, 0 ≤ kv.2) →
      (∀ kv ∈ m, 0 ≤ kv.2) ∧ (∀ kv ∈ c, 0 ≤ kv.2) := by
  intro invs
  induction invs with
  | nil =>
    intro mrev crev m c h _ hm hc
    simp only [revenueLoop, Option.some.injEq, Prod.mk.injEq] at h
    obtain ⟨h1, h2⟩ := h
    subst h1
    subst h2
    exact ⟨hm, hc⟩
  | cons inv rest ih =>
    intro mrev crev m c h hi hm hc
    simp only [revenueLoop] at h
    rcases hname : invClientName s inv with _ | cname
    · rw [hname] at h
      exact absurd h (by simp)
    · rw [hname] at h
      exact ih _ _ _ _ h (fun j hj => hi j (List.mem_cons_of_mem inv hj))
        (dictAdd_values_nonneg _ _ (hi inv (List.mem_cons_self inv rest)) mrev hm)
        (dictAdd_values_nonneg _ _ (hi inv (List.mem_cons_self inv rest)) crev hc)

/-- The per-project totals dict of the timelogs view holds only
non-negative values when the stored hours are. -/
theorem foldl_dictSet_nonneg (s : Store)
    (hs : ∀ e ∈ s.time_entries, 0 ≤ e.hours) :
    ∀ ps : List Project, ∀ d0 : List (Int × Rat), (∀ kv ∈ d0, 0 ≤ kv.2) →
      ∀ kv ∈ ps.foldl (fun d p =>
          dictSet d p.id (((timeEntriesOf s p).map (fun e => e.hours)).sum)) d0,
        0 ≤ kv.2 := by
  intro ps
  induction ps with
  | nil =>
    intro d0 h0 kv hkv
    exact h0 kv hkv
  | cons p pt ih =>
    intro d0 h0 kv hkv
    rw [List.foldl_cons] at hkv
    exact ih _ (dictSet_values_nonneg _ _ (sum_map_nonneg _ _
      (fun e he => hs e (mem_timeEntriesOf he))) d0 h0) kv hkv

/-- Counterexample to C8 as stated: POST /timelogs accepts hours = -5,
and the dashboard of the resulting store reports total_hours = -5,
a negative hour sum over a store reached through the public interface. -/
theorem sums_nonneg_cex :
    (dashboard adminUser negStore
        { year := 2025, month := 6, day := 15 }).total_hours = -5 ∧
    ¬ (0 ≤ (dashboard adminUser negStore
        { year := 2025, month := 6, day := 15 }).total_hours) := by
  have hst : negStore.time_entries
      = [{ id := 1, project_id := 1, date := { year := 2025, month := 6, day := 1 },
           hours := -5, description := ("w") }] := rfl
  have h5 : (dashboard adminUser negStore
      { year := 2025, month := 6, day := 15 }).total_hours = -5 := by
    simp [dashboard, adminUser, hst, dateLe]
  refine ⟨h5, ?_⟩
  rw [h5]
  norm_num

/-- Claim C8 amended: over any store whose stored hours and amounts are
all non-negative, every sum the views compute is non-negative: dashboard
total_hours and total_earned, the timelogs per-project totals, and the
reports project/monthly/client aggregates.  The unconditional claim
fails because POST /timelogs accepts negative hours. -/
theorem sums_nonneg_spec (u : User) (s : Store) (today : CalDate)
    (h_hours : ∀ e ∈ s.time_entries, 0 ≤ e.hours)
    (h_amt : ∀ i ∈ s.invoices, 0 ≤ i.amount) :
    0 ≤ (dashboard u s today).total_hours ∧
    0 ≤ (dashboard u s today).total_earned ∧
    (∀ kv ∈ (timelogs_page u s).project_totals, 0 ≤ kv.2) ∧
    (∀ out, reports_page u s = some out →
      (∀ r ∈ out.project_data, 0 ≤ r.hours) ∧
      (∀ r ∈ out.monthly_data, 0 ≤ r.amount) ∧
      (∀ r ∈ out.client_data, 0 ≤ r.amount)) := by
  refine ⟨?_, ?_, ?_, ?_⟩
  · by_cases hrole : u.role = ("client")
    · simp only [dashboard, hrole, if_true]
      apply sum_map_nonneg
      intro e he
      obtain ⟨p, _, hep⟩ := List.mem_flatMap.mp (List.mem_filter.mp he).1
      exact h_hours e (mem_timeEntriesOf hep)
    · simp only [dashboard, hrole, if_false]
      apply sum_map_nonneg
      intro e he
      exact h_hours e (List.mem_filter.mp he).1
  · by_cases hrole : u.role = ("client")
    · simp only [dashboard, hrole, if_true]
      apply sum_map_nonneg
      intro i hi
      exact h_amt i (List.mem_filter.mp hi).1
    · simp only [dashboard, hrole, if_false]
      apply sum_map_nonneg
      intro i hi
      exact h_amt i (List.mem_filter.mp hi).1
  · by_cases hrole : u.role = ("client")
    · simp only [timelogs_page, hrole, if_true]
      exact foldl_dictSet_nonneg s h_hours _ [] (by simp)
    · simp only [timelogs_page, hrole, if_false]
      exact foldl_dictSet_nonneg s h_hours _ [] (by simp)
  · intro out hout
    obtain ⟨mrev, crev, hrev, hpd, hmd, hcd, _, _, _⟩ :=
      reports_page_fields u s out hout
    have hpa : ∀ i ∈ reportsPaid u s, 0 ≤ i.amount := by
      intro i hi
      unfold reportsPaid at hi
      split at hi
      · exact h_amt i (List.mem_filter.mp hi).1
      · exact absurd hi (List.not_mem_nil i)
    have hvals := revenueLoop_nonneg s (reportsPaid u s) [] [] mrev crev hrev hpa
        (by simp) (by simp)
    refine ⟨?_, ?_, ?_⟩
    · intro r hr
      rw [hpd, reportsProjectData] at hr
      obtain ⟨p, _, rfl⟩ := List.mem_map.mp hr
      exact sum_map_nonneg _ _ (fun e he => h_hours e (mem_timeEntriesOf he))
    · intro r hr
      rw [hmd, sortMonthly, List.mem_insertionSort] at hr
      obtain ⟨kv, hkv, rfl⟩ := List.mem_map.mp hr
      exact hvals.1 kv hkv
    · intro r hr
      rw [hcd, sortClient, List.mem_insertionSort] at hr
      obtain ⟨kv, hkv, rfl⟩ := List.mem_map.mp hr
      exact hvals.2 kv hkv

/-- Witness for C8 amended at the admin user of the sample store, whose
hours and amounts are all non-negative. -/
theorem sums_nonneg_spec_witness :
    ((∀ e ∈ sampleStore.time_entries, 0 ≤ e.hours) ∧
     (∀ i ∈ sampleStore.invoices, 0 ≤ i.amount)) ∧
    (0 ≤ (dashboard adminUser sampleStore
        { year := 2025, month := 6, day := 15 }).total_hours ∧
     0 ≤ (dashboard adminUser sampleStore
        { year := 2025, month := 6, day := 15 }).total_earned ∧
     (∀ kv ∈ (timelogs_page adminUser sampleStore).project_totals, 0 ≤ kv.2) ∧
     (∀ out, reports_page adminUser sampleStore = some out →
        (∀ r ∈ out.project_data, 0 ≤ r.hours) ∧
        (∀ r ∈ out.monthly_data, 0 ≤ r.amount) ∧
        (∀ r ∈ out.client_data, 0 ≤ r.amount))) :=
  ⟨⟨by norm_num [sampleStore], by norm_num [sampleStore]⟩,
   sums_nonneg_spec adminUser sampleStore { year := 2025, month := 6, day := 15 }
     (by norm_num [sampleStore]) (by norm_num [sampleStore])⟩

end Tracker
